import Mathlib

/-! Verification of the managed-client spec for
`trading_networkfirebase_client.py`.

The repository source under `src/` contains only the class head of
`FirebaseClient` with the class-level singleton slot `_instance = None`
(lines 18-21).  The retry policy, operation queue and managed-client
lifecycle that the spec describes are not present in `src/`, so they are
modelled here from the spec's own words; each such definition carries a
doc comment starting with `Modelled from the spec:`.
-/

set_option maxRecDepth 2000

/-- Modelled from the spec: ErrorKind classified as
transient / permanent / rate-limited (§4.2, §6). -/
inductive ErrorKind where
  | transient
  | permanent
  | rateLimited
deriving DecidableEq

/-- Modelled from the spec: client-side error taxonomy (§7); only the
constructors the retry loop produces are needed here. -/
inductive ClientError where
  | resourceExhausted
  | permanentFailure
deriving DecidableEq

/-- Modelled from the spec: the recognized configuration surface (§6):
`max_retries`, `base_delay`, `max_delay`, `jitter_fraction`.  Durations
are naturals (an abstract time unit) and the jitter fraction is the
rational `jitter_num / jitter_den`. -/
structure RetryConfig where
  max_retries : Nat
  base_delay : Nat
  max_delay : Nat
  jitter_num : Nat
  jitter_den : Nat
deriving DecidableEq

/-- Modelled from the spec: RetryDecision = (should_retry, delay) (§3). -/
structure RetryDecision where
  should_retry : Bool
  delay : Nat
deriving DecidableEq

/-- Modelled from the spec: the un-jittered exponential backoff
`min(base * 2^(n-1), cap)` for 1-indexed attempt `n` (§4.2). -/
def backoff (cfg : RetryConfig) (n : Nat) : Nat :=
  min (cfg.base_delay * 2 ^ (n - 1)) cfg.max_delay

/-- Modelled from the spec: the exclusive upper bound `delay * jitter_fraction`
of the jitter interval `[0, delay*jitter_fraction)` (§4.2), rounded down. -/
def jitterBound (cfg : RetryConfig) (d : Nat) : Nat :=
  d * cfg.jitter_num / cfg.jitter_den

/-- Modelled from the spec: the injectable jitter source (§4.2) is a
function from the un-jittered delay to a sample; it is valid when every
sample lies in `[0, jitterBound d)`, degenerating to `0` when the
interval is empty. -/
def ValidJitter (cfg : RetryConfig) (js : Nat → Nat) : Prop :=
  ∀ d : Nat,
    (0 < jitterBound cfg d → js d < jitterBound cfg d) ∧
    (jitterBound cfg d = 0 → js d = 0)

/-- Modelled from the spec: RetryPolicy (§4.2).  Pure function of the
1-indexed attempt number `n` and the ErrorKind: permanent errors never
retry; transient/rate-limited errors retry with delay
`min(base * 2^(n-1), cap)` plus a jitter sample while `n ≤ max_retries`,
and give up afterwards. -/
def RetryPolicy.decide (cfg : RetryConfig) (js : Nat → Nat) (n : Nat)
    (kind : ErrorKind) : RetryDecision :=
  match kind with
  | .permanent => { should_retry := false, delay := 0 }
  | _ =>
    if n ≤ cfg.max_retries then
      let d := backoff cfg n
      { should_retry := true, delay := d + js d }
    else
      { should_retry := false, delay := 0 }

/-- Modelled from the spec: how a finally-failing ErrorKind is surfaced
to the caller (§4.2, §7): an exhausted budget becomes ResourceExhausted,
a permanent error propagates as a permanent failure. -/
def surface (kind : ErrorKind) : ClientError :=
  match kind with
  | .permanent => ClientError.permanentFailure
  | _ => ClientError.resourceExhausted

/-- Modelled from the spec: the retry loop around one operation (§4.2,
§7).  `exec m` is the outcome of the m-th (1-indexed) attempt; the loop
retries while RetryPolicy says so and otherwise surfaces the error.
Returns the final outcome together with the number of attempts made;
`fuel` bounds the recursion and is chosen so it never runs out. -/
def retryGo {α : Type} (cfg : RetryConfig) (js : Nat → Nat)
    (exec : Nat → Except ErrorKind α) :
    Nat → Nat → Except ClientError α × Nat
  | 0, n => (Except.error ClientError.resourceExhausted, n)
  | fuel + 1, n =>
    match exec n with
    | .ok a => (Except.ok a, n)
    | .error k =>
      if (RetryPolicy.decide cfg js n k).should_retry then
        retryGo cfg js exec fuel (n + 1)
      else
        (Except.error (surface k), n)

/-- Modelled from the spec: run an operation with retries starting at
attempt 1; `max_retries + 1` fuel suffices because the policy stops
retrying once `n > max_retries`. -/
def retryRun {α : Type} (cfg : RetryConfig) (js : Nat → Nat)
    (exec : Nat → Except ErrorKind α) : Except ClientError α × Nat :=
  retryGo cfg js exec (cfg.max_retries + 1) 1

/-- Modelled from the spec: operation kind (read/write/delete/update)
of a PendingOperation (§3). -/
inductive OpKind where
  | read
  | write
  | delete
  | update
deriving DecidableEq

/-- Modelled from the spec: PendingOperation = (operation kind, target
path, opaque payload, enqueue timestamp, attempt count) (§3); the
completion callback is omitted as behaviourally opaque. -/
structure PendingOperation where
  kind : OpKind
  path : String
  payload : String
  enqueue_ts : Nat
  attempts : Nat
deriving DecidableEq

/-- Modelled from the spec: the backpressure outcome of `enqueue`,
`Result<void, QueueFullError>` (§4.3). -/
inductive EnqueueResult where
  | ok
  | queueFull
deriving DecidableEq

/-- Modelled from the spec: OperationQueue, a bounded FIFO buffer with a
configurable capacity (§4.3); `items` is front-first. -/
structure OperationQueue where
  capacity : Nat
  items : List PendingOperation
deriving DecidableEq

/-- Modelled from the spec: a freshly constructed empty queue of the
given capacity (§4.3). -/
def OperationQueue.empty (c : Nat) : OperationQueue :=
  { capacity := c, items := [] }

/-- Modelled from the spec: `enqueue(op) -> Result<void, QueueFullError>`
(§4.3): appends at the back when there is room, otherwise fails fast with
QueueFullError and leaves the queue unchanged. -/
def OperationQueue.enqueue (q : OperationQueue) (op : PendingOperation) :
    EnqueueResult × OperationQueue :=
  if q.items.length < q.capacity then
    (EnqueueResult.ok, { q with items := q.items ++ [op] })
  else
    (EnqueueResult.queueFull, q)

/-- Modelled from the spec: `dequeue_batch(max_n)` (§4.3) removes up to
`max_n` operations from the front, in FIFO order. -/
def OperationQueue.dequeue_batch (q : OperationQueue) (max_n : Nat) :
    List PendingOperation × OperationQueue :=
  (q.items.take max_n, { q with items := q.items.drop max_n })

/-- Modelled from the spec: the drain loop (§4.3) empties the queue by
dequeuing everything, yielding the operations in FIFO order. -/
def OperationQueue.drain (q : OperationQueue) :
    List PendingOperation × OperationQueue :=
  q.dequeue_batch q.items.length

/-- Modelled from the spec: a failed dequeued operation re-queued for
retry goes to the back, not the front (§4.3), with its attempt count
bumped (§3). -/
def OperationQueue.requeue (q : OperationQueue) (op : PendingOperation) :
    EnqueueResult × OperationQueue :=
  q.enqueue { op with attempts := op.attempts + 1 }

/-- Modelled from the spec: a sequence of enqueues, stopping at the
first backpressure failure. -/
def enqueueAll (q : OperationQueue) :
    List PendingOperation → EnqueueResult × OperationQueue
  | [] => (EnqueueResult.ok, q)
  | op :: ops =>
    match q.enqueue op with
    | (EnqueueResult.ok, q') => enqueueAll q' ops
    | (EnqueueResult.queueFull, q') => (EnqueueResult.queueFull, q')

/-- Modelled from the spec: the states of an OperationQueue reachable
from a freshly constructed queue through its operations — enqueue,
dequeue_batch, and re-queue of a failed operation (§4.3). -/
inductive OperationQueue.Reachable : OperationQueue → Prop where
  | init (c : Nat) : OperationQueue.Reachable (OperationQueue.empty c)
  | enq (q : OperationQueue) (op : PendingOperation) :
      OperationQueue.Reachable q → OperationQueue.Reachable (q.enqueue op).2
  | deq (q : OperationQueue) (m : Nat) :
      OperationQueue.Reachable q →
      OperationQueue.Reachable (q.dequeue_batch m).2
  | req (q : OperationQueue) (op : PendingOperation) :
      OperationQueue.Reachable q → OperationQueue.Reachable (q.requeue op).2

/-- Concrete sample operation used by witnesses. -/
def opA : PendingOperation := ⟨OpKind.write, "a", "pa", 0, 0⟩

/-- Concrete sample operation used by witnesses. -/
def opB : PendingOperation := ⟨OpKind.write, "b", "pb", 1, 0⟩

/-- Concrete sample operation used by witnesses. -/
def opC : PendingOperation := ⟨OpKind.read, "c", "pc", 2, 0⟩

/-- Concrete sample queue holding the operations enqueued after a
failure, used by witnesses. -/
def queueBC : OperationQueue := { capacity := 3, items := [opB, opC] }

/-- Concrete sample queue state reached by an enqueue, a batch dequeue
and a re-queue, used by witnesses. -/
def reachedQueue : OperationQueue :=
  ((((OperationQueue.empty 2).enqueue opA).2.dequeue_batch 1).2.requeue
    opA).2

/-- Modelled from the spec: ConnectionState (§3). -/
inductive ConnectionState where
  | disconnected
  | connecting
  | connected
  | degraded
deriving DecidableEq

/-- Modelled from the spec: the public-facing singleton client (§4.4),
composing a ConnectionHandle (identified by `handle_id`, the
construction counter value at its creation), a connection state and an
OperationQueue. -/
structure ManagedClient where
  handle_id : Nat
  conn : ConnectionState
  queue : OperationQueue
deriving DecidableEq

/-- Modelled from the spec: default queue capacity (§4.3, "default
documented, e.g. 1000"). -/
def defaultQueueCapacity : Nat := 1000

/-- Modelled from the spec: process-wide singleton state (§3
ClientSingleton): the optional instance slot — mirroring the class-level
slot `_instance = None` of `FirebaseClient` (src lines 18-21) — together
with observable lifecycle counters: how many ConnectionHandles were ever
constructed and how many disconnects were issued. -/
structure GlobalState where
  singleton : Option ManagedClient
  handle_constructions : Nat
  disconnects : Nat
deriving DecidableEq

namespace FirebaseClient

/-- The class-level singleton slot of `FirebaseClient`, from src lines
18-21: `_instance = None` — the value the slot holds at module import,
before any instance is created. -/
def importInstanceSlot : Option ManagedClient := none

end FirebaseClient

/-- Modelled from the spec: the process state at module import time — the
singleton slot is the source's `_instance = None` and no ConnectionHandle
has been constructed or disconnected yet. -/
def GlobalState.initial : GlobalState :=
  { singleton := FirebaseClient.importInstanceSlot,
    handle_constructions := 0,
    disconnects := 0 }

/-- Modelled from the spec: `get_instance()` (§4.4) — lazily initialized
exactly once: when the slot is empty a new ManagedClient is constructed
(with a fresh ConnectionHandle, bumping the construction counter) and
stored; otherwise the stored instance is returned with the state
untouched. -/
def GlobalState.get_instance (g : GlobalState) :
    ManagedClient × GlobalState :=
  match g.singleton with
  | some c => (c, g)
  | none =>
    let c : ManagedClient :=
      { handle_id := g.handle_constructions,
        conn := ConnectionState.disconnected,
        queue := OperationQueue.empty defaultQueueCapacity }
    (c, { g with
            singleton := some c,
            handle_constructions := g.handle_constructions + 1 })

/-- Modelled from the spec: `shutdown()` (§4.4) — when a live instance
exists it disconnects its handle, discards the remaining queued
operations together with the instance, and resets the singleton slot so
a later `get_instance()` can reinitialize cleanly; when no instance
exists it does nothing.  It is a total function: it never raises. -/
def GlobalState.shutdown (g : GlobalState) : GlobalState :=
  match g.singleton with
  | none => g
  | some _ =>
    { g with singleton := none, disconnects := g.disconnects + 1 }

lemma backoff_mono (cfg : RetryConfig) {n m : Nat} (h : n ≤ m) :
    backoff cfg n ≤ backoff cfg m := by
  unfold backoff
  exact min_le_min
    (Nat.mul_le_mul_left _ (Nat.pow_le_pow_right (by norm_num) (by omega)))
    le_rfl

/-- Claim C1: for every 1-indexed attempt `n ≤ max_retries` and a
transient or rate-limited error, RetryPolicy retries with delay
`min(base * 2^(n-1), cap)` plus a jitter sample in
`[0, delay*jitter_fraction)`, and ignoring jitter the delay is
monotonically non-decreasing in `n`. -/
theorem retryPolicy_transient_backoff (cfg : RetryConfig) (js : Nat → Nat)
    (hjs : ValidJitter cfg js) (n : Nat) (hn1 : 1 ≤ n)
    (hn : n ≤ cfg.max_retries) (k : ErrorKind)
    (hk : k = ErrorKind.transient ∨ k = ErrorKind.rateLimited) :
    (RetryPolicy.decide cfg js n k).should_retry = true ∧
    (RetryPolicy.decide cfg js n k).delay
      = backoff cfg n + js (backoff cfg n) ∧
    (js (backoff cfg n) < jitterBound cfg (backoff cfg n) ∨
      js (backoff cfg n) = 0) ∧
    (∀ m : Nat, n ≤ m → backoff cfg n ≤ backoff cfg m) := by
  have hdec :
      RetryPolicy.decide cfg js n k
        = { should_retry := true,
            delay := backoff cfg n + js (backoff cfg n) } := by
    rcases hk with rfl | rfl <;> simp [RetryPolicy.decide, hn]
  refine ⟨by simp [hdec], by simp [hdec], ?_, fun m hm => backoff_mono cfg hm⟩
  rcases Nat.eq_zero_or_pos (jitterBound cfg (backoff cfg n)) with h0 | hpos
  · exact Or.inr ((hjs (backoff cfg n)).2 h0)
  · exact Or.inl ((hjs (backoff cfg n)).1 hpos)

/-- Witness for C1 at a concrete configuration, attempt 2 of 3, with the
zero jitter source. -/
theorem retryPolicy_transient_backoff_witness :
    (RetryPolicy.decide ⟨3, 100, 1000, 0, 1⟩ (fun _ => 0) 2
        ErrorKind.transient).should_retry = true ∧
    (RetryPolicy.decide ⟨3, 100, 1000, 0, 1⟩ (fun _ => 0) 2
        ErrorKind.transient).delay
      = backoff ⟨3, 100, 1000, 0, 1⟩ 2
          + (fun _ : Nat => 0) (backoff ⟨3, 100, 1000, 0, 1⟩ 2) ∧
    ((fun _ : Nat => 0) (backoff ⟨3, 100, 1000, 0, 1⟩ 2)
        < jitterBound ⟨3, 100, 1000, 0, 1⟩ (backoff ⟨3, 100, 1000, 0, 1⟩ 2) ∨
      (fun _ : Nat => 0) (backoff ⟨3, 100, 1000, 0, 1⟩ 2) = 0) ∧
    (∀ m : Nat, 2 ≤ m →
      backoff ⟨3, 100, 1000, 0, 1⟩ 2 ≤ backoff ⟨3, 100, 1000, 0, 1⟩ m) :=
  retryPolicy_transient_backoff ⟨3, 100, 1000, 0, 1⟩ (fun _ => 0)
    (fun d => by simp [jitterBound]) 2 (by decide) (by decide)
    ErrorKind.transient (Or.inl rfl)

lemma retryGo_exhausts {α : Type} (cfg : RetryConfig) (js : Nat → Nat)
    (exec : Nat → Except ErrorKind α)
    (hexec : ∀ m : Nat, ∃ k : ErrorKind,
      k ≠ ErrorKind.permanent ∧ exec m = Except.error k) :
    ∀ fuel n : Nat,
      (retryGo cfg js exec fuel n).1
        = Except.error ClientError.resourceExhausted := by
  intro fuel
  induction fuel with
  | zero => intro n; simp [retryGo]
  | succ fuel ih =>
    intro n
    obtain ⟨k, hk, hm⟩ := hexec n
    by_cases hle : n ≤ cfg.max_retries
    · cases k with
      | permanent => exact absurd rfl hk
      | transient => simp [retryGo, hm, RetryPolicy.decide, hle, ih]
      | rateLimited => simp [retryGo, hm, RetryPolicy.decide, hle, ih]
    · cases k with
      | permanent => exact absurd rfl hk
      | transient => simp [retryGo, hm, RetryPolicy.decide, hle, surface]
      | rateLimited => simp [retryGo, hm, RetryPolicy.decide, hle, surface]

/-- Claim C2: for every attempt number `n > max_retries` RetryPolicy
returns `should_retry = false` for every error kind, and an operation
whose attempts keep failing non-permanently is surfaced to the caller as
a ResourceExhausted failure. -/
theorem retryPolicy_budget_exhausted (cfg : RetryConfig) (js : Nat → Nat)
    (n : Nat) (hn : cfg.max_retries < n) (k : ErrorKind) :
    (RetryPolicy.decide cfg js n k).should_retry = false ∧
    (∀ (exec : Nat → Except ErrorKind Unit),
      (∀ m : Nat, ∃ k' : ErrorKind,
        k' ≠ ErrorKind.permanent ∧ exec m = Except.error k') →
      (retryRun cfg js exec).1
        = Except.error ClientError.resourceExhausted) := by
  constructor
  · cases k <;> simp [RetryPolicy.decide, Nat.not_le.mpr hn]
  · intro exec hexec
    exact retryGo_exhausts cfg js exec hexec _ _

/-- Witness for C2 at attempt 4 with `max_retries = 3`. -/
theorem retryPolicy_budget_exhausted_witness :
    (RetryPolicy.decide ⟨3, 100, 1000, 0, 1⟩ (fun _ => 0) 4
        ErrorKind.rateLimited).should_retry = false ∧
    (∀ (exec : Nat → Except ErrorKind Unit),
      (∀ m : Nat, ∃ k' : ErrorKind,
        k' ≠ ErrorKind.permanent ∧ exec m = Except.error k') →
      (retryRun ⟨3, 100, 1000, 0, 1⟩ (fun _ => 0) exec).1
        = Except.error ClientError.resourceExhausted) :=
  retryPolicy_budget_exhausted ⟨3, 100, 1000, 0, 1⟩ (fun _ => 0) 4
    (by decide) ErrorKind.rateLimited

/-- Claim C3: permanent errors never retry — for every attempt number the
decision is `should_retry = false`, and an operation whose first attempt
fails permanently is propagated immediately: the loop makes exactly one
attempt and returns the permanent failure. -/
theorem retryPolicy_permanent_no_retry (cfg : RetryConfig)
    (js : Nat → Nat) (n : Nat) :
    (RetryPolicy.decide cfg js n ErrorKind.permanent).should_retry = false ∧
    (∀ (exec : Nat → Except ErrorKind Unit),
      exec 1 = Except.error ErrorKind.permanent →
      retryRun cfg js exec
        = (Except.error ClientError.permanentFailure, 1)) := by
  constructor
  · simp [RetryPolicy.decide]
  · intro exec hexec
    simp [retryRun, retryGo, hexec, RetryPolicy.decide, surface]

/-- Witness for C3: a concrete execution failing permanently on attempt 1
stops after that single attempt. -/
theorem retryPolicy_permanent_no_retry_witness :
    (RetryPolicy.decide ⟨3, 100, 1000, 0, 1⟩ (fun _ => 0) 5
        ErrorKind.permanent).should_retry = false ∧
    (∀ (exec : Nat → Except ErrorKind Unit),
      exec 1 = Except.error ErrorKind.permanent →
      retryRun ⟨3, 100, 1000, 0, 1⟩ (fun _ => 0) exec
        = (Except.error ClientError.permanentFailure, 1)) :=
  retryPolicy_permanent_no_retry ⟨3, 100, 1000, 0, 1⟩ (fun _ => 0) 5

lemma enqueueAll_ok (ops : List PendingOperation) :
    ∀ q : OperationQueue, q.items.length + ops.length ≤ q.capacity →
      enqueueAll q ops
        = (EnqueueResult.ok,
           { capacity := q.capacity, items := q.items ++ ops }) := by
  induction ops with
  | nil => intro q _; simp [enqueueAll]
  | cons op ops ih =>
    intro q h
    have hlt : q.items.length < q.capacity := by
      simp at h; omega
    have hrec := ih { q with items := q.items ++ [op] } (by simp at h ⊢; omega)
    simp [enqueueAll, OperationQueue.enqueue, hlt, hrec]

/-- Claim C4: FIFO drain — enqueueing a sequence of operations (in
particular A, B, C) into an empty queue with enough capacity and then
draining yields exactly that sequence in enqueue order, leaving the
queue empty. -/
theorem operationQueue_fifo_drain (c : Nat) (ops : List PendingOperation)
    (h : ops.length ≤ c) :
    enqueueAll (OperationQueue.empty c) ops
      = (EnqueueResult.ok, { capacity := c, items := ops }) ∧
    ({ capacity := c, items := ops } : OperationQueue).drain
      = (ops, OperationQueue.empty c) := by
  constructor
  · have := enqueueAll_ok ops (OperationQueue.empty c)
      (by simpa [OperationQueue.empty] using h)
    simpa [OperationQueue.empty] using this
  · simp [OperationQueue.drain, OperationQueue.dequeue_batch,
      OperationQueue.empty]

/-- Witness for C4: enqueueing A, B, C into an empty capacity-3 queue and
draining yields exactly [A, B, C]. -/
theorem operationQueue_fifo_drain_witness :
    enqueueAll (OperationQueue.empty 3) [opA, opB, opC]
      = (EnqueueResult.ok, { capacity := 3, items := [opA, opB, opC] }) ∧
    ({ capacity := 3, items := [opA, opB, opC] } : OperationQueue).drain
      = ([opA, opB, opC], OperationQueue.empty 3) :=
  operationQueue_fifo_drain 3 [opA, opB, opC] (by decide)

/-- Claim C5, counterexample: the claim says an enqueue followed by
capacity-many MORE enqueues succeeds — i.e. capacity + 1 successful
enqueues from empty.  With capacity 1, the second enqueue (the one
"capacity-many more" requires to succeed) already fails with
QueueFullError, so the claim as stated is false. -/
theorem operationQueue_capacity_plus_one_fails :
    (enqueueAll (OperationQueue.empty 1) [opA, opB]).1
      = EnqueueResult.queueFull := by
  decide

/-- Claim C5, amended: starting from an empty queue of capacity `c`, an
enqueue followed by `c - 1` more enqueues (i.e. `c` enqueues in total)
succeeds; one more enqueue beyond capacity fails with QueueFullError,
and the failing enqueue returns immediately with the queue contents
unchanged. -/
theorem operationQueue_capacity_backpressure (c : Nat)
    (ops : List PendingOperation) (h : ops.length = c)
    (op : PendingOperation) :
    enqueueAll (OperationQueue.empty c) ops
      = (EnqueueResult.ok, { capacity := c, items := ops }) ∧
    ({ capacity := c, items := ops } : OperationQueue).enqueue op
      = (EnqueueResult.queueFull, { capacity := c, items := ops }) := by
  constructor
  · have := enqueueAll_ok ops (OperationQueue.empty c)
      (by simp [OperationQueue.empty, h])
    simpa [OperationQueue.empty] using this
  · simp [OperationQueue.enqueue, h]

/-- Witness for the amended C5 at capacity 2. -/
theorem operationQueue_capacity_backpressure_witness :
    enqueueAll (OperationQueue.empty 2) [opA, opB]
      = (EnqueueResult.ok, { capacity := 2, items := [opA, opB] }) ∧
    ({ capacity := 2, items := [opA, opB] } : OperationQueue).enqueue opC
      = (EnqueueResult.queueFull, { capacity := 2, items := [opA, opB] }) :=
  operationQueue_capacity_backpressure 2 [opA, opB] (by decide) opC

lemma enqueue_length_le (q : OperationQueue) (op : PendingOperation)
    (h : q.items.length ≤ q.capacity) :
    (q.enqueue op).2.items.length ≤ (q.enqueue op).2.capacity := by
  by_cases hlt : q.items.length < q.capacity
  · simp [OperationQueue.enqueue, hlt]; omega
  · simp [OperationQueue.enqueue, hlt, h]

/-- Claim C6: in every reachable state of an OperationQueue — i.e. after
any sequence of enqueues, batch dequeues and re-queues of failed
operations — the number of pending operations never exceeds the
configured capacity. -/
theorem operationQueue_size_bounded (q : OperationQueue)
    (h : OperationQueue.Reachable q) : q.items.length ≤ q.capacity := by
  induction h with
  | init c => simp [OperationQueue.empty]
  | enq q op _ ih => exact enqueue_length_le q op ih
  | deq q m _ ih =>
    simp only [OperationQueue.dequeue_batch, List.length_drop]
    omega
  | req q op _ ih => exact enqueue_length_le q _ ih

/-- Witness for C6: a queue reached by enqueue, dequeue and re-queue from
an empty capacity-2 queue respects the bound. -/
theorem operationQueue_size_bounded_witness :
    OperationQueue.Reachable reachedQueue ∧
    reachedQueue.items.length ≤ reachedQueue.capacity :=
  have hr : OperationQueue.Reachable reachedQueue :=
    OperationQueue.Reachable.req _ _
      (OperationQueue.Reachable.deq _ _
        (OperationQueue.Reachable.enq _ _ (OperationQueue.Reachable.init 2)))
  ⟨hr, operationQueue_size_bounded reachedQueue hr⟩

/-- Claim C7: a failed dequeued operation that is successfully re-queued
is placed at the back of the queue — the new contents are the old
contents followed by the bumped operation, it is the last element, and
when the queue already held operations (e.g. ones enqueued after the
failure) the front of the queue is unchanged, so the re-queued operation
is never at the front of a non-trivial queue. -/
theorem operationQueue_requeue_at_back (q : OperationQueue)
    (op : PendingOperation)
    (h : (q.requeue op).1 = EnqueueResult.ok) :
    (q.requeue op).2.items
      = q.items ++ [{ op with attempts := op.attempts + 1 }] ∧
    (q.requeue op).2.items.getLast?
      = some { op with attempts := op.attempts + 1 } ∧
    (q.items ≠ [] → (q.requeue op).2.items.head? = q.items.head?) := by
  by_cases hlt : q.items.length < q.capacity
  · have hitems : (q.requeue op).2.items
        = q.items ++ [{ op with attempts := op.attempts + 1 }] := by
      simp [OperationQueue.requeue, OperationQueue.enqueue, hlt]
    refine ⟨hitems, ?_, ?_⟩
    · simp [hitems]
    · intro hne
      rw [hitems, List.head?_append_of_ne_nil _ hne]
  · exfalso
    simp [OperationQueue.requeue, OperationQueue.enqueue, hlt] at h

/-- Witness for C7: re-queueing failed operation A behind operations B
and C (enqueued after the failure) puts A at the back and keeps B at the
front. -/
theorem operationQueue_requeue_at_back_witness :
    (queueBC.requeue opA).1 = EnqueueResult.ok ∧
    ((queueBC.requeue opA).2.items
        = queueBC.items ++ [{ opA with attempts := opA.attempts + 1 }] ∧
      (queueBC.requeue opA).2.items.getLast?
        = some { opA with attempts := opA.attempts + 1 } ∧
      (queueBC.items ≠ [] →
        (queueBC.requeue opA).2.items.head? = queueBC.items.head?)) :=
  ⟨by decide, operationQueue_requeue_at_back queueBC opA (by decide)⟩

/-- Claim C8: `get_instance()` lazily initializes the singleton exactly
once — from an empty slot the first call constructs the instance,
stores it and bumps the ConnectionHandle construction counter by one;
and every call on a state whose slot is filled returns the stored
instance with the whole state (in particular the construction counter)
untouched, until a shutdown empties the slot again. -/
theorem managedClient_get_instance_once (g0 : GlobalState)
    (h0 : g0.singleton = none) :
    g0.get_instance.2.singleton = some g0.get_instance.1 ∧
    g0.get_instance.2.handle_constructions
      = g0.handle_constructions + 1 ∧
    (∀ (g : GlobalState) (c : ManagedClient),
      g.singleton = some c → g.get_instance = (c, g)) := by
  refine ⟨?_, ?_, ?_⟩
  · simp [GlobalState.get_instance, h0]
  · simp [GlobalState.get_instance, h0]
  · intro g c hc
    simp [GlobalState.get_instance, hc]

/-- Witness for C8 at the import-time state: the first call constructs
exactly one instance and repeated calls return it unchanged. -/
theorem managedClient_get_instance_once_witness :
    GlobalState.initial.singleton = none ∧
    (GlobalState.initial.get_instance.2.singleton
        = some GlobalState.initial.get_instance.1 ∧
      GlobalState.initial.get_instance.2.handle_constructions
        = GlobalState.initial.handle_constructions + 1 ∧
      (∀ (g : GlobalState) (c : ManagedClient),
        g.singleton = some c → g.get_instance = (c, g))) :=
  ⟨rfl, managedClient_get_instance_once GlobalState.initial rfl⟩

/-- Claim C9: `shutdown()` is idempotent — after one shutdown the slot is
empty, so a second consecutive shutdown takes the no-op branch and
leaves the entire client state unchanged; being a total function it
raises nothing. -/
theorem managedClient_shutdown_idempotent (g : GlobalState) :
    (g.shutdown).shutdown = g.shutdown := by
  cases hg : g.singleton with
  | none => simp [GlobalState.shutdown, hg]
  | some c => simp [GlobalState.shutdown, hg]

/-- Claim C10: at module import time, before any call to
`get_instance()`, the class-level singleton slot `_instance` of
`FirebaseClient` is `None` and no client instance has been constructed,
so lazy initialization always starts from an empty slot. -/
theorem firebaseClient_import_slot_empty :
    FirebaseClient.importInstanceSlot = none ∧
    GlobalState.initial.singleton = none ∧
    GlobalState.initial.handle_constructions = 0 :=
  ⟨rfl, rfl, rfl⟩
